import Mathlib

/-
Verification of the QA-automate visual-regression pipeline.

This file shallowly embeds the capture-compare-score engine of the
repository: the baseline/diff step `takeScreenshotWithDiff`
(src/qa-analyzer.mjs, src/unnamed/part_001), the structural validators
`analyzeViewportSections` (src/quick-start.js) and `analyzeSections`
(src/qa-analyzer.mjs), the content validator `validateExpectedContent`
(src/quick-start.js, src/unnamed/part_003), the style validator
`validateStyles` (src/qa-analyzer.mjs), and the compliance scorers
`assessVisualCompliance` / `assessContentCompliance` /
`calculateTechnicalScore` (src/quick-start.js, src/unnamed/part_003),
plus the report status computation of both `generateReport` variants.

JavaScript numbers are modelled as exact rationals together with the
explicit non-finite values NaN and plus or minus Infinity, which arise
in this code base only from division by zero; on every finite value the
model agrees with the source's IEEE-754 arithmetic at the comparison
boundaries used here.  Browser interaction (element lookup, computed
styles, extracted text) is modelled by explicit outcome parameters, and
the file system's baseline file by an `Option Image` value.
-/

set_option maxHeartbeats 1000000

namespace QA

/-- A JavaScript number: a finite rational or one of the IEEE-754
non-finite values that division by zero produces. -/
inductive JVal where
  | num : ℚ → JVal
  | nan : JVal
  | posInf : JVal
  | negInf : JVal
deriving DecidableEq

/-- JavaScript division `a / b`: division by zero yields NaN for `0 / 0`
and a signed infinity otherwise, exactly as in IEEE-754. -/
def jsDiv (a b : ℚ) : JVal :=
  if b = 0 then
    if a = 0 then .nan else if 0 < a then .posInf else .negInf
  else .num (a / b)

/-- Multiplication of a JavaScript number by the positive literal 100,
as in `(x / y) * 100`; NaN and the infinities are absorbing. -/
def jsMul100 : JVal → JVal
  | .num q => .num (q * 100)
  | .nan => .nan
  | .posInf => .posInf
  | .negInf => .negInf

/-- JavaScript comparison `v >= c` against a finite constant: false on
NaN and negative infinity, true on positive infinity. -/
def jsGe (v : JVal) (c : ℚ) : Bool :=
  match v with
  | .num q => c ≤ q
  | .nan => false
  | .posInf => true
  | .negInf => false

/-- Models JavaScript `String.prototype.toLowerCase` on the character
set this repository uses (ASCII letters, punctuation and the arrow
`→`, on which the two functions agree). -/
def jsToLower (s : String) : String :=
  (s.toList.map Char.toLower).asString

/-- Contiguous-sublist search on character lists, the semantics of
JavaScript `String.prototype.includes`. -/
def hasSubstring (needle : List Char) : List Char → Bool
  | [] => needle.isEmpty
  | c :: t => needle.isPrefixOf (c :: t) || hasSubstring needle t

/-- JavaScript `hay.includes(needle)` for strings. -/
def jsIncludes (hay needle : String) : Bool :=
  hasSubstring needle.toList hay.toList

/-- Drops leading whitespace characters from a character list. -/
def dropLeadingWs : List Char → List Char
  | [] => []
  | c :: t => if c.isWhitespace then dropLeadingWs t else c :: t

/-- Models JavaScript `String.prototype.trim` (on the ASCII whitespace
this repository's computed-style values can contain). -/
def jsTrim (s : String) : String :=
  (dropLeadingWs (dropLeadingWs s.toList.reverse).reverse).asString

/-- One recorded screenshot entry, as pushed onto `this.screenshots`;
`found` is `none` when the source object carries no `found` field
(full-page and responsive captures), mirroring JavaScript `undefined`. -/
structure Screenshot where
  name : String
  path : String := ""
  description : Option String := none
  found : Option Bool := none
deriving DecidableEq

/-- One recorded issue object, as pushed onto `this.issues`; absent
JavaScript fields are `none`.  The source's `section` field is named
`sectionName` because `section` is reserved in Lean. -/
structure Issue where
  type : String
  sectionName : Option String := none
  message : Option String := none
  errText : Option String := none
  expectedText : Option String := none
  description : Option String := none
  pixelsChanged : Option Nat := none
deriving DecidableEq

/-- The mutable per-run accumulators `this.issues` and
`this.screenshots`. -/
structure QAState where
  issues : List Issue
  screenshots : List Screenshot
deriving DecidableEq

/-- A decoded raster image: width, height and flat RGBA byte data, the
shape `PNG.sync.read` yields. -/
structure Image where
  width : Nat
  height : Nat
  data : List Nat
deriving DecidableEq

/-- The outcome of asking the browser for one section: the first
matching element is visible, or not visible, or the lookup threw. -/
inductive SectionOutcome where
  | foundVisible
  | notVisible
  | errored (msg : String)
deriving DecidableEq

end QA

namespace QA.Analyzer

/-- Modelled from the spec: the external `pixelmatch` library (a
dependency, not part of src/) rejects inputs whose flat data sizes
disagree, or whose data size does not match the supplied width and
height, by throwing; otherwise it returns a deterministic changed-pixel
count, supplied here as the parameter `countFn`. -/
def pixelmatch (countFn : Image → Image → Nat) (img1 img2 : Image) :
    Except String Nat :=
  if img1.data.length ≠ img2.data.length then
    .error "Image sizes do not match."
  else if img1.data.length ≠ img1.width * img1.height * 4 then
    .error "Image data size does not match width/height."
  else
    .ok (countFn img1 img2)

/-- State left by one `takeScreenshotWithDiff` call: the accumulators
plus the baseline file's content and whether a diff image was written. -/
structure DiffState where
  screenshots : List Screenshot
  issues : List Issue
  baselineFile : Option Image
  diffWritten : Bool
deriving DecidableEq

/-- Embeds `takeScreenshotWithDiff` from src/qa-analyzer.mjs lines
141-170 (textually repeated in src/unnamed/part_001 lines 148-177).
`baselineFile` is the decoded content of `baseline.png`, `none` when
the file is absent (so `fs.access` throws).  The single `catch` block
of the source handles both the absent-baseline case and any throw from
the diff computation, and in both cases copies the current capture
over the baseline path. -/
def takeScreenshotWithDiff (countFn : Image → Image → Nat) (dir : String)
    (current : Image) (baselineFile : Option Image)
    (screenshots : List Screenshot) (issues : List Issue) : DiffState :=
  let currentPath := s!"{dir}/current.png"
  let diffPath := s!"{dir}/diff.png"
  let screenshots := screenshots ++ [{ name := "full-page", path := currentPath }]
  match baselineFile with
  | none =>
      { screenshots := screenshots, issues := issues,
        baselineFile := some current, diffWritten := false }
  | some img2 =>
      match pixelmatch countFn current img2 with
      | .error _ =>
          { screenshots := screenshots, issues := issues,
            baselineFile := some current, diffWritten := false }
      | .ok pixelDiff =>
          let screenshots := screenshots ++ [{ name := "diff", path := diffPath }]
          let issues :=
            if pixelDiff > 50 then
              issues ++ [{ type := "visual_diff", pixelsChanged := some pixelDiff }]
            else issues
          { screenshots := screenshots, issues := issues,
            baselineFile := some img2, diffWritten := true }

/-- Embeds the per-section loop body of `analyzeSections`
(src/qa-analyzer.mjs lines 172-193): note the error tag is the literal
string `"error"` in this variant. -/
def analyzeSectionStep (outcome : String → SectionOutcome) (dir : String)
    (st : QAState) (sectionName : String) : QAState :=
  match outcome sectionName with
  | .foundVisible =>
      { st with screenshots :=
          st.screenshots ++ [{ name := sectionName, path := s!"{dir}/{sectionName}.png" }] }
  | .notVisible =>
      { st with issues :=
          st.issues ++ [{ type := "missing_section", sectionName := some sectionName }] }
  | .errored msg =>
      { st with issues :=
          st.issues ++ [{ type := "error", sectionName := some sectionName,
                          message := some msg }] }

/-- Embeds `analyzeSections` (src/qa-analyzer.mjs lines 172-193):
`expected` is the resolved section-name list and `outcome` the
browser's answer per section. -/
def analyzeSections (outcome : String → SectionOutcome) (dir : String)
    (expected : List String) (st : QAState) : QAState :=
  expected.foldl (analyzeSectionStep outcome dir) st

/-- The report summary built by `generateReport`
(src/qa-analyzer.mjs lines 250-261): `this.issues.length ? 'REVIEW' :
'PASS'`. -/
structure ReportSummary where
  status : String
  screenshots : Nat
  issues : Nat
deriving DecidableEq

/-- Embeds the `summary` object of `generateReport`
(src/qa-analyzer.mjs lines 250-261). -/
def reportSummary (st : QAState) : ReportSummary :=
  { status := if st.issues.length ≠ 0 then "REVIEW" else "PASS",
    screenshots := st.screenshots.length,
    issues := st.issues.length }

end QA.Analyzer

namespace QA.QuickStart

/-- The `designSpecs.expectedTexts` constant of the `QuickQAAnalyzer`
constructor (src/quick-start.js lines 18-24). -/
def expectedTexts : List String :=
  ["A unified switch",
   "Built for scale",
   "Powering payments across emerging markets",
   "Built with local insight. Backed by global scale",
   "Local → Global"]

/-- The `designSpecs.expectedSections` constant of the constructor
(src/quick-start.js lines 25-31). -/
def expectedSections : List String :=
  ["hero", "features", "trust-indicators", "global-reach", "footer"]

/-- One entry of the hard-coded `sections` array of
`analyzeViewportSections` (src/quick-start.js lines 105-131). -/
structure SectionDef where
  name : String
  selector : String
  description : String
deriving DecidableEq

/-- The hard-coded `sections` array of `analyzeViewportSections`
(src/quick-start.js lines 105-131). -/
def sections : List SectionDef :=
  [{ name := "hero-section", selector := "header, .hero, h1",
     description := "Main hero section with primary heading" },
   { name := "navigation", selector := "nav, .nav, .navigation",
     description := "Main navigation menu" },
   { name := "features", selector := ".features, .cards, [class*=\"feature\"]",
     description := "Feature cards or sections" },
   { name := "trust-section", selector := ".trust, .partners, .logos",
     description := "Trust indicators and partner logos" },
   { name := "footer", selector := "footer", description := "Footer section" }]

/-- Embeds the per-section loop body of `analyzeViewportSections`
(src/quick-start.js lines 133-168): a visible element is captured and
recorded with `found: true`; an invisible one records a
`missing_section` issue; a thrown lookup records an `analysis_error`
issue carrying the section name and the error message. -/
def analyzeSectionStep (outcome : SectionDef → SectionOutcome)
    (st : QAState) (s : SectionDef) : QAState :=
  match outcome s with
  | .foundVisible =>
      { st with screenshots :=
          st.screenshots ++ [{ name := s.name, path := s!"screenshots/{s.name}.png",
                               description := some s.description, found := some true }] }
  | .notVisible =>
      { st with issues :=
          st.issues ++ [{ type := "missing_section", sectionName := some s.name,
                          description := some s!"{s.description} not found or not visible" }] }
  | .errored msg =>
      { st with issues :=
          st.issues ++ [{ type := "analysis_error", sectionName := some s.name,
                          errText := some msg }] }

/-- Embeds `analyzeViewportSections` (src/quick-start.js lines
101-169), generalized over the section list its loop walks. -/
def analyzeViewportSections (outcome : SectionDef → SectionOutcome)
    (secs : List SectionDef) (st : QAState) : QAState :=
  secs.foldl (analyzeSectionStep outcome) st

/-- The `viewports` array of `checkResponsiveDesign`
(src/quick-start.js lines 174-178). -/
def responsiveViewportNames : List String :=
  ["desktop-large", "tablet", "mobile"]

/-- Embeds `checkResponsiveDesign` (src/quick-start.js lines 171-200):
one screenshot per responsive viewport, with no `found` field. -/
def checkResponsiveDesign (st : QAState) : QAState :=
  responsiveViewportNames.foldl
    (fun st name =>
      { st with screenshots :=
          st.screenshots ++ [{ name := s!"responsive-{name}",
                               path := s!"screenshots/responsive-{name}.png" }] }) st

/-- Embeds `performVisualAnalysis` (src/quick-start.js lines 77-99):
push the full-page screenshot, analyze the hard-coded sections, then
capture the responsive views. -/
def performVisualAnalysis (outcome : SectionDef → SectionOutcome)
    (st : QAState) : QAState :=
  let st := { st with screenshots :=
      st.screenshots ++ [{ name := "full-page", path := "screenshots/full-page.png" }] }
  checkResponsiveDesign (analyzeViewportSections outcome sections st)

/-- One extracted text fragment with its recorded visibility flag, as
built by the `page.evaluate` call of `performContentAnalysis`. -/
structure Fragment where
  text : String
  visible : Bool
deriving DecidableEq

/-- The extracted text content handed to `validateExpectedContent`. -/
structure TextContent where
  headings : List Fragment
  paragraphs : List Fragment
  buttons : List Fragment
  links : List Fragment
deriving DecidableEq

/-- The `allText` corpus of `validateExpectedContent`
(src/quick-start.js lines 239-244): every fragment's text, joined with
single spaces and lower-cased — the `visible` flags are not consulted. -/
def allTextOf (tc : TextContent) : String :=
  jsToLower (String.intercalate " "
    (tc.headings.map Fragment.text ++ tc.paragraphs.map Fragment.text ++
     tc.buttons.map Fragment.text ++ tc.links.map Fragment.text))

/-- Embeds `validateExpectedContent` (src/quick-start.js lines 236-260,
textually repeated in src/unnamed/part_003 lines 327-353), generalized
over the expected-text list it walks. -/
def validateExpectedContent (expected : List String) (tc : TextContent)
    (st : QAState) : QAState :=
  let allText := allTextOf tc
  expected.foldl
    (fun st expectedText =>
      if jsIncludes allText (jsToLower expectedText) then st
      else
        { st with issues :=
            st.issues ++ [{ type := "missing_content", expectedText := some expectedText,
                            description :=
                              some s!"Expected text \"{expectedText}\" not found on page" }] })
    st

/-- The record returned by the compliance scorers. -/
structure Assessment where
  score : JVal
  status : String
  details : String
deriving DecidableEq

/-- Embeds `assessVisualCompliance` (src/quick-start.js lines 333-343):
`foundSections` counts every recorded screenshot whose `found` field is
not `false` — full-page and responsive captures included. -/
def assessVisualCompliance (st : QAState) : Assessment :=
  let totalSections := expectedSections.length
  let foundSections := (st.screenshots.filter (fun s => s.found != some false)).length
  let complianceScore := jsMul100 (jsDiv (foundSections : ℚ) (totalSections : ℚ))
  { score := complianceScore,
    status := if jsGe complianceScore 80 then "GOOD"
              else if jsGe complianceScore 60 then "FAIR" else "POOR",
    details := s!"{foundSections}/{totalSections} expected sections found" }

/-- Embeds `assessContentCompliance` (src/quick-start.js lines
345-356); `foundTexts` is a JavaScript subtraction, hence an integer
that could in principle be negative. -/
def assessContentCompliance (st : QAState) : Assessment :=
  let totalExpectedTexts := expectedTexts.length
  let missingTexts := (st.issues.filter (fun i => i.type == "missing_content")).length
  let foundTexts : ℤ := (totalExpectedTexts : ℤ) - (missingTexts : ℤ)
  let complianceScore := jsMul100 (jsDiv (foundTexts : ℚ) (totalExpectedTexts : ℚ))
  { score := complianceScore,
    status := if jsGe complianceScore 80 then "GOOD"
              else if jsGe complianceScore 60 then "FAIR" else "POOR",
    details := s!"{foundTexts}/{totalExpectedTexts} expected texts found" }

/-- The record returned by `calculateTechnicalScore`. -/
structure TechAssessment where
  score : ℚ
  status : String
  errorCount : Nat
deriving DecidableEq

/-- Embeds `calculateTechnicalScore` (src/quick-start.js lines 358-369,
identical in src/unnamed/part_003 lines 456-467): ten points off per
`analysis_error` issue, floored at zero. -/
def calculateTechnicalScore (st : QAState) : TechAssessment :=
  let errorCount := (st.issues.filter (fun i => i.type == "analysis_error")).length
  let baseScore : ℚ := 100
  let penalty : ℚ := (errorCount : ℚ) * 10
  let score : ℚ := max 0 (baseScore - penalty)
  { score := score,
    status := if score ≥ 80 then "GOOD" else if score ≥ 60 then "FAIR" else "POOR",
    errorCount := errorCount }

/-- The `summary` object of `generateReport` (src/quick-start.js lines
398-410): `PASS` exactly when the issues list is empty, else
`NEEDS_REVIEW`. -/
structure ReportSummary where
  totalScreenshots : Nat
  totalIssues : Nat
  status : String
deriving DecidableEq

/-- Embeds the `summary` construction of `generateReport`
(src/quick-start.js lines 398-410). -/
def reportSummary (st : QAState) : ReportSummary :=
  { totalScreenshots := st.screenshots.length,
    totalIssues := st.issues.length,
    status := if st.issues.length == 0 then "PASS" else "NEEDS_REVIEW" }

/-- The browser-environment parameters one `run()` of
`QuickQAAnalyzer` depends on: the outcome of each section lookup and
the extracted page text. -/
structure RunEnv where
  sectionOutcome : SectionDef → SectionOutcome
  textContent : TextContent

/-- The state-relevant part of `run()` (src/quick-start.js lines
525-556): starting from empty accumulators, `performVisualAnalysis`
then `performContentAnalysis` (whose only state effect is
`validateExpectedContent`); `performTechnicalAnalysis` touches neither
accumulator.  Its image over all environments is the set of reachable
end-of-run states. -/
def quickRun (env : RunEnv) : QAState :=
  validateExpectedContent expectedTexts env.textContent
    (performVisualAnalysis env.sectionOutcome { issues := [], screenshots := [] })

end QA.QuickStart

namespace QA.Enhanced

/-- The `defaultDesignSpecs.expectedTexts` constant of
src/unnamed/part_003 lines 17-23. -/
def defaultExpectedTexts : List String :=
  ["A unified switch",
   "Built for scale",
   "Powering payments across emerging markets",
   "Built with local insight. Backed by global scale",
   "Local → Global"]

/-- The `defaultDesignSpecs.expectedSections` constant of
src/unnamed/part_003 lines 24-30. -/
def defaultExpectedSections : List String :=
  ["hero", "features", "trust-indicators", "global-reach", "footer"]

/-- Embeds `assessVisualCompliance` (src/unnamed/part_003 lines
422-439).  `figmaSections` is the value of
`this.figmaDesignSpecs?.expectedSections`: `none` models a missing
field (JavaScript `undefined`, so `||` selects the default), while
`some []` models an empty array, which is truthy and therefore used
as-is. -/
def assessVisualCompliance (figmaSections : Option (List String))
    (st : QAState) : QuickStart.Assessment :=
  let expectedSections := figmaSections.getD defaultExpectedSections
  let totalSections := expectedSections.length
  let foundSections :=
    (st.screenshots.filter
      (fun s => expectedSections.contains s.name && s.found != some false)).length
  let complianceScore := jsMul100 (jsDiv (foundSections : ℚ) (totalSections : ℚ))
  { score := complianceScore,
    status := if jsGe complianceScore 80 then "GOOD"
              else if jsGe complianceScore 60 then "FAIR" else "POOR",
    details := s!"{foundSections}/{totalSections} expected sections found" }

/-- Embeds `assessContentCompliance` (src/unnamed/part_003 lines
440-454), with `figmaTexts` the value of
`this.figmaDesignSpecs?.expectedTexts` as above. -/
def assessContentCompliance (figmaTexts : Option (List String))
    (st : QAState) : QuickStart.Assessment :=
  let expectedTexts := figmaTexts.getD defaultExpectedTexts
  let totalExpectedTexts := expectedTexts.length
  let missingTexts := (st.issues.filter (fun i => i.type == "missing_content")).length
  let foundTexts : ℤ := (totalExpectedTexts : ℤ) - (missingTexts : ℤ)
  let complianceScore := jsMul100 (jsDiv (foundTexts : ℚ) (totalExpectedTexts : ℚ))
  { score := complianceScore,
    status := if jsGe complianceScore 80 then "GOOD"
              else if jsGe complianceScore 60 then "FAIR" else "POOR",
    details := s!"{foundTexts}/{totalExpectedTexts} expected texts found" }

/-- Embeds `calculateTechnicalScore` (src/unnamed/part_003 lines
456-467), textually identical to the quick-start variant. -/
def calculateTechnicalScore (st : QAState) : QuickStart.TechAssessment :=
  let errorCount := (st.issues.filter (fun i => i.type == "analysis_error")).length
  let baseScore : ℚ := 100
  let penalty : ℚ := (errorCount : ℚ) * 10
  let score : ℚ := max 0 (baseScore - penalty)
  { score := score,
    status := if score ≥ 80 then "GOOD" else if score ≥ 60 then "FAIR" else "POOR",
    errorCount := errorCount }

end QA.Enhanced

namespace QA.Analyzer

/-- The `designTokens` constant of the `EnhancedQAAnalyzer` constructor
(src/qa-analyzer.mjs lines 41-51). -/
def designTokens : List (String × String) :=
  [("colors.primary", "#0070f3"), ("colors.secondary", "#1c1c1e"),
   ("fonts.body", "\"Inter\", sans-serif"), ("fonts.heading", "\"Poppins\", sans-serif")]

/-- One entry of the `checks` array of `validateStyles`
(src/qa-analyzer.mjs lines 197-224). -/
structure StyleCheck where
  name : String
  selector : String
  expectedStyles : List (String × String)
deriving DecidableEq

/-- The `checks` array of `validateStyles` (src/qa-analyzer.mjs lines
197-224), with the design-token values substituted. -/
def styleChecks : List StyleCheck :=
  [{ name := "header", selector := "header",
     expectedStyles := [("color", "#0070f3"), ("font-family", "\"Poppins\", sans-serif")] },
   { name := "body", selector := "body",
     expectedStyles := [("color", "#1c1c1e"), ("font-family", "\"Inter\", sans-serif")] },
   { name := "footer", selector := "footer",
     expectedStyles := [("color", "#1c1c1e"), ("font-family", "\"Inter\", sans-serif")] }]

/-- The normalization applied to both sides of a style comparison
(src/qa-analyzer.mjs lines 233-234): lower-case, then remove single
quotes, double quotes and whitespace, as the regular expression
`/['"\s]/g` does on the ASCII values this code compares. -/
def normalizeCssValue (s : String) : String :=
  ((s.toList.map Char.toLower).filter
    (fun c => !(c == '\'' || c == '"' || c == ' ' || c == '\t' || c == '\n' ||
                c == '\r' || c == '\x0b' || c == '\x0c'))).asString

/-- The per-property body of the inner loop of `validateStyles`
(src/qa-analyzer.mjs lines 230-243): compare the normalized values by
substring containment and build the `style_mismatch` issue on failure. -/
def stylePropertyIssue (checkName prop expected computedValue : String) :
    Option Issue :=
  let normalizedExpected := normalizeCssValue expected
  let normalizedActual := normalizeCssValue computedValue
  if !(jsIncludes normalizedActual normalizedExpected) then
    let trimmed := jsTrim computedValue
    some { type := "style_mismatch", sectionName := some checkName,
           message :=
             some s!"CSS property \"{prop}\" expected \"{expected}\", but got \"{trimmed}\"" }
  else none

/-- The property loop of one `validateStyles` check (src/qa-analyzer.mjs
lines 226-247): `styleOf` returns the computed value of a property or
the message of a thrown lookup; a throw stops this check's loop and
records one `error` issue tagged `style_validation_<name>`. -/
def runStyleProps (styleOf : String → String → Except String String)
    (checkName selector : String) :
    List (String × String) → List Issue → List Issue
  | [], issues => issues
  | (prop, expected) :: rest, issues =>
      match styleOf selector prop with
      | .error msg =>
          issues ++ [{ type := "error",
                       sectionName := some s!"style_validation_{checkName}",
                       message := some msg }]
      | .ok computedValue =>
          match stylePropertyIssue checkName prop expected computedValue with
          | some issue => runStyleProps styleOf checkName selector rest (issues ++ [issue])
          | none => runStyleProps styleOf checkName selector rest issues

/-- Embeds `validateStyles` (src/qa-analyzer.mjs lines 196-248). -/
def validateStyles (styleOf : String → String → Except String String)
    (issues : List Issue) : List Issue :=
  styleChecks.foldl
    (fun issues check => runStyleProps styleOf check.name check.selector
      check.expectedStyles issues) issues

end QA.Analyzer

namespace QA

/-- Follows the spec's words: the uniform three-tier classification
`score >= 80 → GOOD`, `60 <= score < 80 → FAIR`, `score < 60 → POOR`,
stated over JavaScript numbers. -/
def specStatusOf (score : JVal) : String :=
  if jsGe score 80 then "GOOD" else if jsGe score 60 then "FAIR" else "POOR"

/-- Follows the spec's words (for comparison with the code): the
content corpus built from only the fragments whose recorded `visible`
flag is true. -/
def visibleCorpus (tc : QuickStart.TextContent) : String :=
  jsToLower (String.intercalate " "
    ((tc.headings.filter QuickStart.Fragment.visible).map QuickStart.Fragment.text ++
     (tc.paragraphs.filter QuickStart.Fragment.visible).map QuickStart.Fragment.text ++
     (tc.buttons.filter QuickStart.Fragment.visible).map QuickStart.Fragment.text ++
     (tc.links.filter QuickStart.Fragment.visible).map QuickStart.Fragment.text))

end QA

namespace QA

/-- C5: after comparing a current capture against an existing baseline
whose data sizes match (so `pixelmatch` succeeds), a `visual_diff`
issue carrying the changed-pixel count is appended if and only if that
count is strictly greater than 50; otherwise the issues list is
unchanged. -/
theorem visual_diff_issue_iff_over_50_pixels
    (countFn : Image → Image → Nat) (dir : String) (current b : Image)
    (screenshots : List Screenshot) (issues : List Issue)
    (hlen : current.data.length = b.data.length)
    (hwf : current.data.length = current.width * current.height * 4) :
    (Analyzer.takeScreenshotWithDiff countFn dir current (some b)
        screenshots issues).issues
      = issues ++
        (if countFn current b > 50 then
          [{ type := "visual_diff", pixelsChanged := some (countFn current b) }]
         else []) := by
  unfold Analyzer.takeScreenshotWithDiff Analyzer.pixelmatch
  simp only [hlen, hwf, ne_eq, not_true_eq_false, if_false, ite_false]
  split <;> simp_all
  split <;> simp

/-- C5 witness: a 75-pixel diff yields exactly one `visual_diff` issue
with `pixelsChanged` 75; a 50-pixel diff yields none. -/
theorem visual_diff_issue_witness :
    (Analyzer.takeScreenshotWithDiff (fun _ _ => 75) "d"
        ⟨1, 1, [0, 0, 0, 0]⟩ (some ⟨1, 1, [9, 9, 9, 9]⟩) [] []).issues
      = [{ type := "visual_diff", pixelsChanged := some 75 }] ∧
    (Analyzer.takeScreenshotWithDiff (fun _ _ => 50) "d"
        ⟨1, 1, [0, 0, 0, 0]⟩ (some ⟨1, 1, [9, 9, 9, 9]⟩) [] []).issues = [] := by
  constructor
  · have h := visual_diff_issue_iff_over_50_pixels (fun _ _ => 75) "d"
      ⟨1, 1, [0, 0, 0, 0]⟩ ⟨1, 1, [9, 9, 9, 9]⟩ [] [] rfl rfl
    simpa using h
  · have h := visual_diff_issue_iff_over_50_pixels (fun _ _ => 50) "d"
      ⟨1, 1, [0, 0, 0, 0]⟩ ⟨1, 1, [9, 9, 9, 9]⟩ [] [] rfl rfl
    simpa using h

/-- C6: both report generators answer `PASS` exactly when the issues
list is empty; any non-empty issues list yields `NEEDS_REVIEW`
(quick-start.js) respectively `REVIEW` (qa-analyzer.mjs). -/
theorem pass_iff_no_issues (st : QAState) :
    ((QuickStart.reportSummary st).status
       = if st.issues = [] then "PASS" else "NEEDS_REVIEW") ∧
    ((Analyzer.reportSummary st).status
       = if st.issues = [] then "PASS" else "REVIEW") ∧
    ((QuickStart.reportSummary st).status = "PASS" ↔ st.issues = []) ∧
    ((Analyzer.reportSummary st).status = "PASS" ↔ st.issues = []) := by
  cases h : st.issues <;>
    simp [QuickStart.reportSummary, Analyzer.reportSummary, h]

/-- C6 witness: the empty issues list gives `PASS` in both report
variants, and a single issue of the mildest kind flips them to
`NEEDS_REVIEW` and `REVIEW`. -/
theorem pass_iff_no_issues_witness :
    (QuickStart.reportSummary { issues := [], screenshots := [] }).status = "PASS" ∧
    (Analyzer.reportSummary { issues := [], screenshots := [] }).status = "PASS" ∧
    (QuickStart.reportSummary
        { issues := [{ type := "missing_section" }], screenshots := [] }).status
      = "NEEDS_REVIEW" ∧
    (Analyzer.reportSummary
        { issues := [{ type := "missing_section" }], screenshots := [] }).status
      = "REVIEW" := by
  refine ⟨?_, ?_, ?_, ?_⟩
  · exact (pass_iff_no_issues { issues := [], screenshots := [] }).2.2.1.mpr rfl
  · exact (pass_iff_no_issues { issues := [], screenshots := [] }).2.2.2.mpr rfl
  · have h := (pass_iff_no_issues
      { issues := [{ type := "missing_section" }], screenshots := [] }).1
    simpa using h
  · have h := (pass_iff_no_issues
      { issues := [{ type := "missing_section" }], screenshots := [] }).2.1
    simpa using h

/-- C10: the three-tier classification is exact at its boundaries —
`score >= 80` gives GOOD, `60 <= score < 80` gives FAIR, `score < 60`
gives POOR, with the boundary samples 80, 79.999, 60 and 59.999 — and
all the scorers compute their status with exactly this classifier. -/
theorem status_tier_boundaries_uniform :
    (∀ q : ℚ,
      (specStatusOf (.num q) = "GOOD" ↔ 80 ≤ q) ∧
      (specStatusOf (.num q) = "FAIR" ↔ 60 ≤ q ∧ q < 80) ∧
      (specStatusOf (.num q) = "POOR" ↔ q < 60)) ∧
    specStatusOf (.num 80) = "GOOD" ∧
    specStatusOf (.num (79.999 : ℚ)) = "FAIR" ∧
    specStatusOf (.num 60) = "FAIR" ∧
    specStatusOf (.num (59.999 : ℚ)) = "POOR" ∧
    (∀ st : QAState,
      (QuickStart.assessVisualCompliance st).status
        = specStatusOf (QuickStart.assessVisualCompliance st).score ∧
      (QuickStart.assessContentCompliance st).status
        = specStatusOf (QuickStart.assessContentCompliance st).score ∧
      (QuickStart.calculateTechnicalScore st).status
        = specStatusOf (.num (QuickStart.calculateTechnicalScore st).score) ∧
      (Enhanced.calculateTechnicalScore st).status
        = specStatusOf (.num (Enhanced.calculateTechnicalScore st).score)) := by
  refine ⟨?_, ?_, ?_, ?_, ?_, ?_⟩
  · intro q
    by_cases h80 : (80 : ℚ) ≤ q
    · have h1 : ¬ q < 80 := not_lt.mpr h80
      have h2 : ¬ q < 60 := by linarith
      simp [specStatusOf, jsGe, h80, h1, h2]
    · by_cases h60 : (60 : ℚ) ≤ q
      · have h1 : q < 80 := not_le.mp h80
        have h2 : ¬ q < 60 := not_lt.mpr h60
        simp [specStatusOf, jsGe, h80, h60, h1, h2]
      · have h1 : q < 60 := not_le.mp h60
        have h2 : ¬ (80 : ℚ) ≤ q := h80
        simp [specStatusOf, jsGe, h80, h60, h1, h2]
  · have h : (80 : ℚ) ≤ 80 := le_refl _
    simp [specStatusOf, jsGe, h]
  · have h1 : ¬ (80 : ℚ) ≤ 79.999 := by norm_num
    have h2 : (60 : ℚ) ≤ 79.999 := by norm_num
    simp [specStatusOf, jsGe, h1, h2]
  · have h1 : ¬ (80 : ℚ) ≤ 60 := by norm_num
    have h2 : (60 : ℚ) ≤ 60 := le_refl _
    simp [specStatusOf, jsGe, h1, h2]
  · have h1 : ¬ (80 : ℚ) ≤ 59.999 := by norm_num
    have h2 : ¬ (60 : ℚ) ≤ 59.999 := by norm_num
    simp [specStatusOf, jsGe, h1, h2]
  · intro st
    refine ⟨rfl, rfl, ?_, ?_⟩ <;>
      simp only [QuickStart.calculateTechnicalScore, Enhanced.calculateTechnicalScore,
        specStatusOf, jsGe, ge_iff_le, decide_eq_true_eq]

/-- C10 witness: the classifier applied at the four boundary samples,
and the scorers' status fields on a concrete state. -/
theorem status_tier_witness :
    specStatusOf (.num 80) = "GOOD" ∧
    specStatusOf (.num (59.999 : ℚ)) = "POOR" ∧
    (QuickStart.calculateTechnicalScore { issues := [], screenshots := [] }).status
      = specStatusOf
          (.num (QuickStart.calculateTechnicalScore { issues := [], screenshots := [] }).score) :=
  ⟨status_tier_boundaries_uniform.2.1,
   status_tier_boundaries_uniform.2.2.2.2.1,
   (status_tier_boundaries_uniform.2.2.2.2.2 { issues := [], screenshots := [] }).2.2.1⟩

end QA

namespace QA

/-- The character-list substring search agrees with Mathlib's
contiguous-sublist relation. -/
theorem hasSubstring_iff_parts (needle hay : List Char) :
    hasSubstring needle hay = true ↔ needle <:+: hay := by
  induction hay with
  | nil => simp [hasSubstring, List.isEmpty_iff, List.infix_nil]
  | cons c t ih =>
      simp [hasSubstring, List.isPrefixOf_iff_prefix, ih, List.infix_cons_iff]

/-- C9: the style judgment compares the two values after lower-casing
and stripping quotes and whitespace, accepts exactly when the
normalized actual value contains the normalized expected value as a
contiguous substring, and otherwise yields a `style_mismatch` issue
whose message names the property, the expected value and the trimmed
actual value. -/
theorem style_match_normalized_substring
    (checkName prop expected actual : String) :
    (Analyzer.stylePropertyIssue checkName prop expected actual = none ↔
      ∃ pre post : List Char,
        pre ++ (Analyzer.normalizeCssValue expected).toList ++ post
          = (Analyzer.normalizeCssValue actual).toList) ∧
    (jsIncludes (Analyzer.normalizeCssValue actual)
        (Analyzer.normalizeCssValue expected) = false →
      Analyzer.stylePropertyIssue checkName prop expected actual
        = some { type := "style_mismatch", sectionName := some checkName,
                 message := some
                   s!"CSS property \"{prop}\" expected \"{expected}\", but got \"{jsTrim actual}\"" }) := by
  have key : jsIncludes (Analyzer.normalizeCssValue actual)
      (Analyzer.normalizeCssValue expected) = true ↔
      ∃ pre post : List Char,
        pre ++ (Analyzer.normalizeCssValue expected).toList ++ post
          = (Analyzer.normalizeCssValue actual).toList := by
    unfold jsIncludes
    rw [hasSubstring_iff_parts]
    exact Iff.rfl
  constructor
  · rw [← key]
    cases hb : jsIncludes (Analyzer.normalizeCssValue actual)
        (Analyzer.normalizeCssValue expected) <;>
      simp [Analyzer.stylePropertyIssue, hb]
  · intro hb
    simp [Analyzer.stylePropertyIssue, hb]

/-- C9 witness: a non-matching computed color yields the
`style_mismatch` issue with the full message, and a value differing
only in casing, quotes and spacing is accepted. -/
theorem style_match_witness :
    Analyzer.stylePropertyIssue "header" "color" "#0070f3" "rgb(28, 28, 30)"
      = some { type := "style_mismatch", sectionName := some "header",
               message := some
                 "CSS property \"color\" expected \"#0070f3\", but got \"rgb(28, 28, 30)\"" } ∧
    Analyzer.stylePropertyIssue "body" "font-family" "\"Inter\", sans-serif"
        "Inter, sans-serif" = none := by
  constructor
  · have h := (style_match_normalized_substring "header" "color" "#0070f3"
      "rgb(28, 28, 30)").2 (by decide)
    simpa using h
  · exact (style_match_normalized_substring "body" "font-family"
      "\"Inter\", sans-serif" "Inter, sans-serif").1.mpr ⟨[], [], by decide⟩

/-- C1 counterexample: a (page, viewport) key with a stored baseline of
different dimensions than the current capture does not keep its
baseline — the capture-and-diff step replaces the baseline file. -/
theorem baseline_overwritten_on_size_mismatch :
    (Analyzer.takeScreenshotWithDiff (fun _ _ => 0) "shots"
        ⟨3, 1, [0, 0, 0, 0, 0, 0, 0, 0, 0, 0, 0, 0]⟩
        (some ⟨1, 1, [0, 0, 0, 0]⟩) [] []).baselineFile
      ≠ some ⟨1, 1, [0, 0, 0, 0]⟩ := by decide

/-- C1 amended: a baseline is created exactly when none exists, and an
existing baseline is preserved whenever the pixel comparison succeeds
(matching data sizes and well-formed current image); a second immediate
run with the same current image finds the created baseline and, the
changed-pixel count on identical images being zero, records no
`visual_diff` issue and leaves the baseline unchanged.  (When the
comparison throws — e.g. mismatched dimensions or a corrupt baseline —
the catch block replaces the baseline instead.) -/
theorem baseline_create_once_and_preserved_on_successful_diff :
    (∀ (countFn : Image → Image → Nat) (dir : String) (current : Image)
        (screenshots : List Screenshot) (issues : List Issue),
      (Analyzer.takeScreenshotWithDiff countFn dir current none
          screenshots issues).baselineFile = some current ∧
      (Analyzer.takeScreenshotWithDiff countFn dir current none
          screenshots issues).issues = issues) ∧
    (∀ (countFn : Image → Image → Nat) (dir : String) (current b : Image)
        (screenshots : List Screenshot) (issues : List Issue),
      current.data.length = b.data.length →
      current.data.length = current.width * current.height * 4 →
      (Analyzer.takeScreenshotWithDiff countFn dir current (some b)
          screenshots issues).baselineFile = some b) ∧
    (∀ (countFn : Image → Image → Nat) (dir : String) (c : Image)
        (screenshots : List Screenshot) (issues : List Issue),
      c.data.length = c.width * c.height * 4 →
      countFn c c = 0 →
      (Analyzer.takeScreenshotWithDiff countFn dir c (some c)
          screenshots issues).baselineFile = some c ∧
      (Analyzer.takeScreenshotWithDiff countFn dir c (some c)
          screenshots issues).issues = issues) := by
  refine ⟨?_, ?_, ?_⟩
  · intro countFn dir current screenshots issues
    exact ⟨rfl, rfl⟩
  · intro countFn dir current b screenshots issues hlen hwf
    unfold Analyzer.takeScreenshotWithDiff Analyzer.pixelmatch
    simp only [hlen, hwf, ne_eq, not_true_eq_false, if_false, ite_false]
    split <;> simp_all
  · intro countFn dir c screenshots issues hwf hzero
    unfold Analyzer.takeScreenshotWithDiff Analyzer.pixelmatch
    simp [hwf, hzero]

/-- C1 witness: with a concrete one-pixel image, creation happens when
no baseline exists, a same-sized baseline is preserved, and the
immediate second run with the just-created baseline keeps it and adds
no issue. -/
theorem baseline_create_once_witness :
    ((Analyzer.takeScreenshotWithDiff (fun _ _ => 0) "d" ⟨1, 1, [0, 0, 0, 0]⟩
        none [] []).baselineFile = some ⟨1, 1, [0, 0, 0, 0]⟩ ∧
     (Analyzer.takeScreenshotWithDiff (fun _ _ => 0) "d" ⟨1, 1, [0, 0, 0, 0]⟩
        none [] []).issues = []) ∧
    (Analyzer.takeScreenshotWithDiff (fun _ _ => 0) "d" ⟨1, 1, [0, 0, 0, 0]⟩
        (some ⟨1, 1, [7, 7, 7, 7]⟩) [] []).baselineFile = some ⟨1, 1, [7, 7, 7, 7]⟩ ∧
    ((Analyzer.takeScreenshotWithDiff (fun _ _ => 0) "d" ⟨1, 1, [0, 0, 0, 0]⟩
        (some ⟨1, 1, [0, 0, 0, 0]⟩) [] []).baselineFile = some ⟨1, 1, [0, 0, 0, 0]⟩ ∧
     (Analyzer.takeScreenshotWithDiff (fun _ _ => 0) "d" ⟨1, 1, [0, 0, 0, 0]⟩
        (some ⟨1, 1, [0, 0, 0, 0]⟩) [] []).issues = []) :=
  ⟨baseline_create_once_and_preserved_on_successful_diff.1
      (fun _ _ => 0) "d" ⟨1, 1, [0, 0, 0, 0]⟩ [] [],
   baseline_create_once_and_preserved_on_successful_diff.2.1
      (fun _ _ => 0) "d" ⟨1, 1, [0, 0, 0, 0]⟩ ⟨1, 1, [7, 7, 7, 7]⟩ [] [] rfl rfl,
   baseline_create_once_and_preserved_on_successful_diff.2.2
      (fun _ _ => 0) "d" ⟨1, 1, [0, 0, 0, 0]⟩ [] [] rfl rfl⟩

/-- C4 counterexample: with a stored 1x1 baseline and a 2x1 current
capture, the capture-and-diff step records no issue at all (in
particular no `analysis_error`), silently replaces the baseline with
the current capture, and writes no diff image. -/
theorem dimension_mismatch_records_no_issue :
    (Analyzer.takeScreenshotWithDiff (fun _ _ => 0) "d"
        ⟨2, 1, [0, 0, 0, 0, 0, 0, 0, 0]⟩ (some ⟨1, 1, [0, 0, 0, 0]⟩) [] []).issues
      = [] ∧
    (Analyzer.takeScreenshotWithDiff (fun _ _ => 0) "d"
        ⟨2, 1, [0, 0, 0, 0, 0, 0, 0, 0]⟩ (some ⟨1, 1, [0, 0, 0, 0]⟩) [] []).baselineFile
      = some ⟨2, 1, [0, 0, 0, 0, 0, 0, 0, 0]⟩ ∧
    (Analyzer.takeScreenshotWithDiff (fun _ _ => 0) "d"
        ⟨2, 1, [0, 0, 0, 0, 0, 0, 0, 0]⟩ (some ⟨1, 1, [0, 0, 0, 0]⟩) [] []).diffWritten
      = false := by decide

/-- C4 amended: when the current capture and the stored baseline have
different data sizes, the `pixelmatch` throw is caught by the same
handler as a missing baseline: no issue of any kind is recorded, no
diff image is produced, the existing baseline is overwritten with the
current capture, and the step completes normally so the run continues. -/
theorem dimension_mismatch_overwrites_baseline_and_continues
    (countFn : Image → Image → Nat) (dir : String) (current b : Image)
    (screenshots : List Screenshot) (issues : List Issue)
    (hlen : current.data.length ≠ b.data.length) :
    (Analyzer.takeScreenshotWithDiff countFn dir current (some b)
        screenshots issues).issues = issues ∧
    (Analyzer.takeScreenshotWithDiff countFn dir current (some b)
        screenshots issues).baselineFile = some current ∧
    (Analyzer.takeScreenshotWithDiff countFn dir current (some b)
        screenshots issues).diffWritten = false ∧
    (Analyzer.takeScreenshotWithDiff countFn dir current (some b)
        screenshots issues).screenshots
      = screenshots ++ [{ name := "full-page", path := s!"{dir}/current.png" }] := by
  unfold Analyzer.takeScreenshotWithDiff Analyzer.pixelmatch
  simp [hlen]

/-- C4 witness: the amended statement at the concrete 2x1-vs-1x1
mismatch. -/
theorem dimension_mismatch_witness :
    (Analyzer.takeScreenshotWithDiff (fun _ _ => 9) "run"
        ⟨2, 1, [1, 1, 1, 1, 2, 2, 2, 2]⟩ (some ⟨1, 1, [1, 1, 1, 1]⟩) [] []).issues
      = [] ∧
    (Analyzer.takeScreenshotWithDiff (fun _ _ => 9) "run"
        ⟨2, 1, [1, 1, 1, 1, 2, 2, 2, 2]⟩ (some ⟨1, 1, [1, 1, 1, 1]⟩) [] []).baselineFile
      = some ⟨2, 1, [1, 1, 1, 1, 2, 2, 2, 2]⟩ :=
  ⟨(dimension_mismatch_overwrites_baseline_and_continues (fun _ _ => 9) "run"
      ⟨2, 1, [1, 1, 1, 1, 2, 2, 2, 2]⟩ ⟨1, 1, [1, 1, 1, 1]⟩ [] [] (by decide)).1,
   (dimension_mismatch_overwrites_baseline_and_continues (fun _ _ => 9) "run"
      ⟨2, 1, [1, 1, 1, 1, 2, 2, 2, 2]⟩ ⟨1, 1, [1, 1, 1, 1]⟩ [] [] (by decide)).2.1⟩

end QA

namespace QA

/-- Issues appended by the quick-start structural validator: one per
section, in list order, independent of the other sections' outcomes. -/
theorem qs_sections_issues_eq (outcome : QuickStart.SectionDef → QA.SectionOutcome)
    (secs : List QuickStart.SectionDef) (st : QAState) :
    (QuickStart.analyzeViewportSections outcome secs st).issues
      = st.issues ++ secs.flatMap (fun s =>
          match outcome s with
          | .foundVisible => []
          | .notVisible =>
              [{ type := "missing_section", sectionName := some s.name,
                 description := some s!"{s.description} not found or not visible" }]
          | .errored msg =>
              [{ type := "analysis_error", sectionName := some s.name,
                 errText := some msg }]) := by
  induction secs generalizing st with
  | nil => simp [QuickStart.analyzeViewportSections]
  | cons s t ih =>
      have h := ih (QuickStart.analyzeSectionStep outcome st s)
      simp only [QuickStart.analyzeViewportSections, List.foldl_cons] at h ⊢
      rw [h]
      cases hout : outcome s <;>
        simp [QuickStart.analyzeSectionStep, hout, List.flatMap_cons, List.append_assoc]

/-- Screenshots appended by the quick-start structural validator. -/
theorem qs_sections_screens_eq (outcome : QuickStart.SectionDef → QA.SectionOutcome)
    (secs : List QuickStart.SectionDef) (st : QAState) :
    (QuickStart.analyzeViewportSections outcome secs st).screenshots
      = st.screenshots ++ secs.flatMap (fun s =>
          match outcome s with
          | .foundVisible =>
              [{ name := s.name, path := s!"screenshots/{s.name}.png",
                 description := some s.description, found := some true }]
          | .notVisible => []
          | .errored _ => []) := by
  induction secs generalizing st with
  | nil => simp [QuickStart.analyzeViewportSections]
  | cons s t ih =>
      have h := ih (QuickStart.analyzeSectionStep outcome st s)
      simp only [QuickStart.analyzeViewportSections, List.foldl_cons] at h ⊢
      rw [h]
      cases hout : outcome s <;>
        simp [QuickStart.analyzeSectionStep, hout, List.flatMap_cons, List.append_assoc]

/-- Issues appended by the qa-analyzer structural validator: same
structure, but the lookup-failure tag is the literal `"error"`. -/
theorem analyzer_sections_issues_eq (outcome : String → QA.SectionOutcome)
    (dir : String) (expected : List String) (st : QAState) :
    (Analyzer.analyzeSections outcome dir expected st).issues
      = st.issues ++ expected.flatMap (fun name =>
          match outcome name with
          | .foundVisible => []
          | .notVisible => [{ type := "missing_section", sectionName := some name }]
          | .errored msg =>
              [{ type := "error", sectionName := some name, message := some msg }]) := by
  induction expected generalizing st with
  | nil => simp [Analyzer.analyzeSections]
  | cons s t ih =>
      have h := ih (Analyzer.analyzeSectionStep outcome dir st s)
      simp only [Analyzer.analyzeSections, List.foldl_cons] at h ⊢
      rw [h]
      cases hout : outcome s <;>
        simp [Analyzer.analyzeSectionStep, hout, List.flatMap_cons, List.append_assoc]

/-- Issues appended by the content validator: one `missing_content`
issue per expected text absent from the corpus, in list order. -/
theorem validate_content_issues_eq (expected : List String)
    (tc : QuickStart.TextContent) (st : QAState) :
    (QuickStart.validateExpectedContent expected tc st).issues
      = st.issues ++ expected.filterMap (fun t =>
          if jsIncludes (QuickStart.allTextOf tc) (jsToLower t) then none
          else some { type := "missing_content", expectedText := some t,
                      description := some s!"Expected text \"{t}\" not found on page" }) := by
  induction expected generalizing st with
  | nil => simp [QuickStart.validateExpectedContent]
  | cons t rest ih =>
      have h := ih st
      simp only [QuickStart.validateExpectedContent, List.foldl_cons] at h ih ⊢
      cases hit : jsIncludes (QuickStart.allTextOf tc) (jsToLower t)
      all_goals
        simp only [hit, Bool.false_eq_true, if_false, if_true, List.filterMap_cons]
        rw [ih]
        try simp [List.append_assoc]

/-- The content validator never touches the screenshots accumulator. -/
theorem validate_content_screens_eq (expected : List String)
    (tc : QuickStart.TextContent) (st : QAState) :
    (QuickStart.validateExpectedContent expected tc st).screenshots
      = st.screenshots := by
  induction expected generalizing st with
  | nil => simp [QuickStart.validateExpectedContent]
  | cons t rest ih =>
      simp only [QuickStart.validateExpectedContent, List.foldl_cons] at ih ⊢
      cases hit : jsIncludes (QuickStart.allTextOf tc) (jsToLower t) <;>
        simp only [hit, Bool.false_eq_true, if_false, if_true] <;> rw [ih]

/-- The responsive-design pass appends exactly three screenshots and
no issue. -/
theorem responsive_design_state (st : QAState) :
    (QuickStart.checkResponsiveDesign st).issues = st.issues ∧
    (QuickStart.checkResponsiveDesign st).screenshots.length
      = st.screenshots.length + 3 := by
  simp [QuickStart.checkResponsiveDesign, QuickStart.responsiveViewportNames]

/-- C7 counterexample: in qa-analyzer.mjs's `analyzeSections`, a
throwing section lookup is recorded with the literal tag `"error"`,
not `"analysis_error"` — at this input no `analysis_error` issue
exists at all. -/
theorem analyzer_error_issue_tag_counterexample :
    (Analyzer.analyzeSections (fun _ => .errored "locator crashed") "d" ["hero"]
        { issues := [], screenshots := [] }).issues
      = [{ type := "error", sectionName := some "hero",
           message := some "locator crashed" }] ∧
    ((Analyzer.analyzeSections (fun _ => .errored "locator crashed") "d" ["hero"]
        { issues := [], screenshots := [] }).issues.filter
        (fun i => i.type == "analysis_error")) = [] := by decide

/-- C7 amended: in both structural validators a failing section lookup
appends one issue carrying the section name and the error message
(tagged `analysis_error` in quick-start.js, `error` in
qa-analyzer.mjs), validation continues with the remaining sections,
and issues are appended in the expected-section list's order. -/
theorem section_errors_recorded_in_order_without_abort :
    (∀ (outcome : QuickStart.SectionDef → QA.SectionOutcome)
        (secs : List QuickStart.SectionDef) (st : QAState),
      (QuickStart.analyzeViewportSections outcome secs st).issues
        = st.issues ++ secs.flatMap (fun s =>
            match outcome s with
            | .foundVisible => []
            | .notVisible =>
                [{ type := "missing_section", sectionName := some s.name,
                   description := some s!"{s.description} not found or not visible" }]
            | .errored msg =>
                [{ type := "analysis_error", sectionName := some s.name,
                   errText := some msg }])) ∧
    (∀ (outcome : String → QA.SectionOutcome) (dir : String)
        (expected : List String) (st : QAState),
      (Analyzer.analyzeSections outcome dir expected st).issues
        = st.issues ++ expected.flatMap (fun name =>
            match outcome name with
            | .foundVisible => []
            | .notVisible => [{ type := "missing_section", sectionName := some name }]
            | .errored msg =>
                [{ type := "error", sectionName := some name, message := some msg }])) :=
  ⟨qs_sections_issues_eq, analyzer_sections_issues_eq⟩

/-- C7 witness: a run over three sections whose middle lookup throws
records the error issue between its neighbours' issues and still
evaluates the last section. -/
theorem section_errors_witness :
    (QuickStart.analyzeViewportSections
        (fun s => if s.name = "navigation" then .errored "boom"
                  else if s.name = "footer" then .notVisible else .foundVisible)
        [{ name := "hero-section", selector := "h1", description := "Hero" },
         { name := "navigation", selector := "nav", description := "Nav" },
         { name := "footer", selector := "footer", description := "Footer" }]
        { issues := [], screenshots := [] }).issues
      = [{ type := "analysis_error", sectionName := some "navigation",
           errText := some "boom" },
         { type := "missing_section", sectionName := some "footer",
           description := some "Footer not found or not visible" }] := by
  have h := section_errors_recorded_in_order_without_abort.1
    (fun s => if s.name = "navigation" then .errored "boom"
              else if s.name = "footer" then .notVisible else .foundVisible)
    [{ name := "hero-section", selector := "h1", description := "Hero" },
     { name := "navigation", selector := "nav", description := "Nav" },
     { name := "footer", selector := "footer", description := "Footer" }]
    { issues := [], screenshots := [] }
  rw [h]
  decide

end QA

namespace QA

/-- C8 counterexample: an expected text present only in a fragment
recorded as invisible is reported as found (no `missing_content`
issue), even though it does not occur in the corpus of visible
fragments — the validator never consults the `visible` flags. -/
theorem invisible_text_counts_as_found :
    (QuickStart.validateExpectedContent ["Secret promo"]
        { headings := [{ text := "Secret promo", visible := false }],
          paragraphs := [], buttons := [], links := [] }
        { issues := [], screenshots := [] }).issues = [] ∧
    jsIncludes
        (visibleCorpus
          { headings := [{ text := "Secret promo", visible := false }],
            paragraphs := [], buttons := [], links := [] })
        (jsToLower "Secret promo") = false := by decide

/-- C8 amended: the corpus concatenates the text of every extracted
fragment — visible or not — space-separated and lower-cased, and a
`missing_content` issue is appended for an expected fragment if and
only if it does not occur case-insensitively as a substring of that
corpus; the Unicode-arrow scenario with different casing is found. -/
theorem content_corpus_ignores_visibility_flag :
    (∀ (expected : List String) (tc : QuickStart.TextContent) (st : QAState),
      (QuickStart.validateExpectedContent expected tc st).issues
        = st.issues ++ expected.filterMap (fun t =>
            if jsIncludes (QuickStart.allTextOf tc) (jsToLower t) then none
            else some { type := "missing_content", expectedText := some t,
                        description :=
                          some s!"Expected text \"{t}\" not found on page" })) ∧
    (QuickStart.validateExpectedContent ["Local → Global"]
        { headings := [{ text := "local → global", visible := true }],
          paragraphs := [], buttons := [], links := [] }
        { issues := [], screenshots := [] }).issues = [] :=
  ⟨validate_content_issues_eq, by decide⟩

/-- C8 witness: the amended equation evaluated at a two-text page:
the fragment present with other casing yields no issue, the absent
one yields exactly its `missing_content` issue. -/
theorem content_corpus_witness :
    (QuickStart.validateExpectedContent ["Built for scale", "Nowhere on page"]
        { headings := [{ text := "BUILT FOR SCALE", visible := true }],
          paragraphs := [], buttons := [], links := [] }
        { issues := [], screenshots := [] }).issues
      = [{ type := "missing_content", expectedText := some "Nowhere on page",
           description := some "Expected text \"Nowhere on page\" not found on page" }] := by
  have h := content_corpus_ignores_visibility_flag.1
    ["Built for scale", "Nowhere on page"]
    { headings := [{ text := "BUILT FOR SCALE", visible := true }],
      paragraphs := [], buttons := [], links := [] }
    { issues := [], screenshots := [] }
  rw [h]
  decide

/-- C2 counterexample: with an empty expected-section list (and the
analogous empty expected-text list) the scorers compute `0 / 0`,
yielding NaN — not the vacuous score 100 the claim asserts. -/
theorem empty_spec_scores_are_nan :
    (Enhanced.assessVisualCompliance (some [])
        { issues := [], screenshots := [] }).score = JVal.nan ∧
    (Enhanced.assessContentCompliance (some [])
        { issues := [], screenshots := [] }).score = JVal.nan ∧
    JVal.nan ≠ JVal.num 100 := by
  refine ⟨?_, ?_, by simp⟩ <;>
    simp [Enhanced.assessVisualCompliance, Enhanced.assessContentCompliance,
      jsDiv, jsMul100]

/-- C2 amended: with an empty expected-section list the visual score is
always NaN, and with an empty expected-text list the content score is
NaN (when no `missing_content` issue exists) or negative infinity
(otherwise); in no case is it 100 — the scorers do perform the division
by zero and produce a non-numeric score. -/
theorem empty_spec_division_by_zero_behavior (st : QAState) :
    (Enhanced.assessVisualCompliance (some []) st).score = JVal.nan ∧
    ((Enhanced.assessContentCompliance (some []) st).score = JVal.nan ∨
     (Enhanced.assessContentCompliance (some []) st).score = JVal.negInf) ∧
    (Enhanced.assessVisualCompliance (some []) st).score ≠ JVal.num 100 ∧
    (Enhanced.assessContentCompliance (some []) st).score ≠ JVal.num 100 := by
  have hv : (Enhanced.assessVisualCompliance (some []) st).score = JVal.nan := by
    simp [Enhanced.assessVisualCompliance, jsDiv, jsMul100]
  have hc : (Enhanced.assessContentCompliance (some []) st).score = JVal.nan ∨
      (Enhanced.assessContentCompliance (some []) st).score = JVal.negInf := by
    rcases Nat.eq_zero_or_pos
        ((st.issues.filter (fun i => i.type == "missing_content")).length) with h0 | hpos
    · left
      simp [Enhanced.assessContentCompliance, jsDiv, jsMul100, h0]
    · right
      simp only [Enhanced.assessContentCompliance, Option.getD_some,
        List.length_nil, Nat.cast_zero, CharP.cast_eq_zero, jsDiv, jsMul100,
        if_true]
      split_ifs with h1 h2
      · exfalso
        have h1x : (0 : ℤ) - ((st.issues.filter
            (fun i => i.type == "missing_content")).length : ℤ) = 0 := by
          exact_mod_cast h1
        omega
      · exfalso
        have h2x : (0 : ℤ) < 0 - ((st.issues.filter
            (fun i => i.type == "missing_content")).length : ℤ) := by
          exact_mod_cast h2
        omega
      · rfl
  refine ⟨hv, hc, ?_, ?_⟩
  · rw [hv]
    simp
  · rcases hc with h | h <;> rw [h] <;> simp

/-- C2 witness: the amended statement instantiated at a state with one
`missing_content` issue, exhibiting the negative-infinity branch, and
at the empty state, exhibiting NaN. -/
theorem empty_spec_division_by_zero_witness :
    (Enhanced.assessVisualCompliance (some [])
        { issues := [{ type := "missing_content" }], screenshots := [] }).score
      = JVal.nan ∧
    (Enhanced.assessContentCompliance (some [])
        { issues := [{ type := "missing_content" }], screenshots := [] }).score
      ≠ JVal.num 100 :=
  ⟨(empty_spec_division_by_zero_behavior
      { issues := [{ type := "missing_content" }], screenshots := [] }).1,
   (empty_spec_division_by_zero_behavior
      { issues := [{ type := "missing_content" }], screenshots := [] }).2.2.2⟩

end QA

namespace QA

/-- A flat-map by a function producing at most one element per input
is no longer than its input. -/
theorem length_flatMap_le_card {α β : Type} (f : α → List β) (l : List α)
    (h : ∀ a, (f a).length ≤ 1) : (l.flatMap f).length ≤ l.length := by
  induction l with
  | nil => simp
  | cons a t ih =>
      simp only [List.flatMap_cons, List.length_append, List.length_cons]
      have := h a
      omega

/-- Filtering a flat-map whose pieces are all filtered away yields the
empty list. -/
theorem filter_flatMap_nil {α β : Type} (p : β → Bool) (f : α → List β)
    (l : List α) (h : ∀ a, (f a).filter p = []) : (l.flatMap f).filter p = [] := by
  induction l with
  | nil => simp
  | cons a t ih => simp [List.flatMap_cons, List.filter_append, h a, ih]

/-- The visual-analysis pass leaves exactly the structural validator's
issues on the issue accumulator. -/
theorem perform_visual_issues_eq (outcome : QuickStart.SectionDef → QA.SectionOutcome)
    (st : QAState) :
    (QuickStart.performVisualAnalysis outcome st).issues
      = st.issues ++ QuickStart.sections.flatMap (fun s =>
          match outcome s with
          | .foundVisible => []
          | .notVisible =>
              [{ type := "missing_section", sectionName := some s.name,
                 description := some s!"{s.description} not found or not visible" }]
          | .errored msg =>
              [{ type := "analysis_error", sectionName := some s.name,
                 errText := some msg }]) := by
  unfold QuickStart.performVisualAnalysis
  rw [(responsive_design_state _).1, qs_sections_issues_eq]

/-- The visual-analysis pass appends at most nine screenshots: the
full page, at most one per hard-coded section, and three responsive
views. -/
theorem perform_visual_screens_len (outcome : QuickStart.SectionDef → QA.SectionOutcome)
    (st : QAState) :
    (QuickStart.performVisualAnalysis outcome st).screenshots.length
      ≤ st.screenshots.length + 9 := by
  unfold QuickStart.performVisualAnalysis
  rw [(responsive_design_state _).2, qs_sections_screens_eq]
  simp only [List.length_append]
  have hfm : (QuickStart.sections.flatMap (fun s =>
      match outcome s with
      | SectionOutcome.foundVisible =>
          [{ name := s.name, path := s!"screenshots/{s.name}.png",
             description := some s.description, found := some true }]
      | SectionOutcome.notVisible => []
      | SectionOutcome.errored _ => ([] : List Screenshot))).length
      ≤ QuickStart.sections.length := by
    apply length_flatMap_le_card
    intro s
    cases outcome s <;> simp
  have h5 : QuickStart.sections.length = 5 := rfl
  simp only [List.length_append, List.length_cons, List.length_nil] at *
  omega

/-- No issue recorded by the structural validator carries the
`missing_content` tag. -/
theorem perform_visual_no_missing_content
    (outcome : QuickStart.SectionDef → QA.SectionOutcome) :
    ((QuickStart.performVisualAnalysis outcome
        { issues := [], screenshots := [] }).issues.filter
        (fun i => i.type == "missing_content")) = [] := by
  rw [perform_visual_issues_eq]
  have hb1 : (("missing_section" == "missing_content") = false) := by decide
  have hb2 : (("analysis_error" == "missing_content") = false) := by decide
  simp only [List.nil_append]
  apply filter_flatMap_nil
  intro s
  cases outcome s <;> simp [hb1, hb2]

/-- Finite-score shape of the two ratio scorers. -/
theorem jsScore_num (a : ℚ) (n : ℕ) (hn : (n : ℚ) ≠ 0) :
    jsMul100 (jsDiv a (n : ℚ)) = JVal.num (a / (n : ℚ) * 100) := by
  simp [jsDiv, jsMul100, hn]

end QA

namespace QA

/-- C3 amended: over every reachable end-of-run state, the content and
technical scores lie in [0, 100], but the visual score is only bounded
by [0, 180]: `foundSections` counts every screenshot whose `found`
field is not `false`, so the full-page and the three responsive
captures inflate it past the five expected sections. -/
theorem score_bounds_content_technical_and_visual_180
    (env : QuickStart.RunEnv) :
    (∃ q : ℚ, (QuickStart.assessContentCompliance (QuickStart.quickRun env)).score
        = JVal.num q ∧ 0 ≤ q ∧ q ≤ 100) ∧
    (0 ≤ (QuickStart.calculateTechnicalScore (QuickStart.quickRun env)).score ∧
     (QuickStart.calculateTechnicalScore (QuickStart.quickRun env)).score ≤ 100) ∧
    (∃ q : ℚ, (QuickStart.assessVisualCompliance (QuickStart.quickRun env)).score
        = JVal.num q ∧ 0 ≤ q ∧ q ≤ 180) := by
  have hm : ((QuickStart.quickRun env).issues.filter
      (fun i => i.type == "missing_content")).length ≤ 5 := by
    unfold QuickStart.quickRun
    rw [validate_content_issues_eq, List.filter_append, List.length_append,
      perform_visual_no_missing_content]
    simp only [List.length_nil, Nat.zero_add]
    refine le_trans (List.length_filter_le _ _)
      (le_trans (List.length_filterMap_le _ _) ?_)
    simp [QuickStart.expectedTexts]
  have hscreens : ((QuickStart.quickRun env).screenshots.filter
      (fun s => s.found != some false)).length ≤ 9 := by
    have h1 := List.length_filter_le (fun s => s.found != some false)
      (QuickStart.quickRun env).screenshots
    have h2 : (QuickStart.quickRun env).screenshots.length ≤ 9 := by
      unfold QuickStart.quickRun
      rw [validate_content_screens_eq]
      have := perform_visual_screens_len env.sectionOutcome
        { issues := [], screenshots := [] }
      simpa using this
    omega
  refine ⟨?_, ?_, ?_⟩
  · have hscore : (QuickStart.assessContentCompliance (QuickStart.quickRun env)).score
        = jsMul100 (jsDiv (((QuickStart.expectedTexts.length : ℤ)
            - (((QuickStart.quickRun env).issues.filter
                (fun i => i.type == "missing_content")).length : ℤ) : ℤ) : ℚ)
          ((QuickStart.expectedTexts.length : ℕ) : ℚ)) := rfl
    rw [hscore, jsScore_num _ _ (by norm_num [QuickStart.expectedTexts])]
    refine ⟨_, rfl, ?_, ?_⟩
    · have ha : (0 : ℚ) ≤ (((QuickStart.expectedTexts.length : ℤ)
          - (((QuickStart.quickRun env).issues.filter
              (fun i => i.type == "missing_content")).length : ℤ) : ℤ) : ℚ) := by
        have : (0 : ℤ) ≤ (QuickStart.expectedTexts.length : ℤ)
            - (((QuickStart.quickRun env).issues.filter
                (fun i => i.type == "missing_content")).length : ℤ) := by
          have h3 : QuickStart.expectedTexts.length = 5 := rfl
          omega
        exact_mod_cast this
      positivity
    · have ha : (((QuickStart.expectedTexts.length : ℤ)
          - (((QuickStart.quickRun env).issues.filter
              (fun i => i.type == "missing_content")).length : ℤ) : ℤ) : ℚ) ≤ 5 := by
        have : (QuickStart.expectedTexts.length : ℤ)
            - (((QuickStart.quickRun env).issues.filter
                (fun i => i.type == "missing_content")).length : ℤ) ≤ 5 := by
          have h3 : QuickStart.expectedTexts.length = 5 := rfl
          omega
        exact_mod_cast this
      have h5 : ((QuickStart.expectedTexts.length : ℕ) : ℚ) = 5 := by norm_num [QuickStart.expectedTexts]
      rw [h5]
      nlinarith
  · constructor
    · exact le_max_left _ _
    · apply max_le (by norm_num)
      have hp : (0 : ℚ) ≤ (((QuickStart.quickRun env).issues.filter
          (fun i => i.type == "analysis_error")).length : ℚ) * 10 := by positivity
      linarith
  · have hscore : (QuickStart.assessVisualCompliance (QuickStart.quickRun env)).score
        = jsMul100 (jsDiv ((((QuickStart.quickRun env).screenshots.filter
            (fun s => s.found != some false)).length : ℚ))
          ((QuickStart.expectedSections.length : ℕ) : ℚ)) := rfl
    rw [hscore, jsScore_num _ _ (by norm_num [QuickStart.expectedSections])]
    refine ⟨_, rfl, ?_, ?_⟩
    · positivity
    · have ha : ((((QuickStart.quickRun env).screenshots.filter
          (fun s => s.found != some false)).length : ℕ) : ℚ) ≤ 9 := by
        exact_mod_cast hscreens
      have h5 : ((QuickStart.expectedSections.length : ℕ) : ℚ) = 5 := by
        norm_num [QuickStart.expectedSections]
      rw [h5]
      nlinarith

end QA

namespace QA

/-- C3 counterexample: a reachable state — every section lookup
succeeds — where the visual compliance score is 180, outside [0, 100]:
the nine recorded screenshots (full page, five sections, three
responsive views) are all counted against the five expected sections. -/
theorem visual_score_exceeds_100_on_full_run :
    (QuickStart.assessVisualCompliance
        (QuickStart.quickRun
          { sectionOutcome := fun _ => .foundVisible,
            textContent :=
              { headings := [], paragraphs := [], buttons := [], links := [] } })).score
      = JVal.num 180 ∧
    ¬ ∃ q : ℚ,
        (QuickStart.assessVisualCompliance
            (QuickStart.quickRun
              { sectionOutcome := fun _ => .foundVisible,
                textContent :=
                  { headings := [], paragraphs := [], buttons := [], links := [] } })).score
          = JVal.num q ∧ 0 ≤ q ∧ q ≤ 100 := by
  have h9 : ((QuickStart.quickRun
      { sectionOutcome := fun _ => .foundVisible,
        textContent :=
          { headings := [], paragraphs := [], buttons := [], links := [] } }).screenshots.filter
      (fun s => s.found != some false)).length = 9 := by decide
  have hs : (QuickStart.assessVisualCompliance
      (QuickStart.quickRun
        { sectionOutcome := fun _ => .foundVisible,
          textContent :=
            { headings := [], paragraphs := [], buttons := [], links := [] } })).score
      = JVal.num 180 := by
    have hscore : (QuickStart.assessVisualCompliance
        (QuickStart.quickRun
          { sectionOutcome := fun _ => .foundVisible,
            textContent :=
              { headings := [], paragraphs := [], buttons := [], links := [] } })).score
        = jsMul100 (jsDiv (((QuickStart.quickRun
            { sectionOutcome := fun _ => .foundVisible,
              textContent :=
                { headings := [], paragraphs := [], buttons := [], links := [] } }).screenshots.filter
            (fun s => s.found != some false)).length : ℚ)
          ((QuickStart.expectedSections.length : ℕ) : ℚ)) := rfl
    rw [hscore, h9, jsScore_num _ _ (by norm_num [QuickStart.expectedSections])]
    have h180 : ((9 : ℕ) : ℚ) / ((QuickStart.expectedSections.length : ℕ) : ℚ) * 100
        = 180 := by
      norm_num [QuickStart.expectedSections]
    rw [h180]
  refine ⟨hs, ?_⟩
  rintro ⟨q, hq, h0, h100⟩
  have hqq := hs.symm.trans hq
  have : (180 : ℚ) = q := by injection hqq
  rw [← this] at h100
  norm_num at h100

/-- C3 witness: the amended bounds instantiated at the run in which
every section lookup reports the element invisible. -/
theorem score_bounds_witness :
    (∃ q : ℚ, (QuickStart.assessContentCompliance
        (QuickStart.quickRun
          { sectionOutcome := fun _ => .notVisible,
            textContent :=
              { headings := [], paragraphs := [], buttons := [], links := [] } })).score
        = JVal.num q ∧ 0 ≤ q ∧ q ≤ 100) ∧
    (0 ≤ (QuickStart.calculateTechnicalScore
        (QuickStart.quickRun
          { sectionOutcome := fun _ => .notVisible,
            textContent :=
              { headings := [], paragraphs := [], buttons := [], links := [] } })).score ∧
     (QuickStart.calculateTechnicalScore
        (QuickStart.quickRun
          { sectionOutcome := fun _ => .notVisible,
            textContent :=
              { headings := [], paragraphs := [], buttons := [], links := [] } })).score
       ≤ 100) :=
  ⟨(score_bounds_content_technical_and_visual_180
      { sectionOutcome := fun _ => .notVisible,
        textContent :=
          { headings := [], paragraphs := [], buttons := [], links := [] } }).1,
   (score_bounds_content_technical_and_visual_180
      { sectionOutcome := fun _ => .notVisible,
        textContent :=
          { headings := [], paragraphs := [], buttons := [], links := [] } }).2.1⟩

end QA
